import Mathlib

/-!
Verification of the avalanche-tweet-generator-dashboard pipeline.

This file shallowly embeds the TypeScript sources under `src/` into Lean:
JavaScript strings are `List Char` (so that `trim`, `startsWith`,
`slice`, `includes`, `toLowerCase` have explicit definitions), parsed
JSON values are an inductive `Json`, numbers are `ℚ`, fallible
operations return an explicit `Result`, and external I/O (the Anthropic
API, HTTP fetches, the filesystem) is passed in as explicit data, so
that each function is the pure core of the corresponding source
function.
-/

/-! ## JavaScript string primitives over `List Char` -/

/-- Whitespace characters removed by JavaScript `String.prototype.trim`
(the common ones that can occur around a model response). -/
def jsIsWhitespace (c : Char) : Bool :=
  c = ' ' ∨ c = '\t' ∨ c = '\n' ∨ c = '\r'

/-- JavaScript `s.trim()`. -/
def jsTrim (s : List Char) : List Char :=
  ((s.dropWhile jsIsWhitespace).reverse.dropWhile jsIsWhitespace).reverse

/-- JavaScript `s.startsWith(p)`. -/
def jsStartsWith (p s : List Char) : Bool :=
  p.isPrefixOf s

/-- JavaScript `s.endsWith(p)`. -/
def jsEndsWith (p s : List Char) : Bool :=
  p.isSuffixOf s

/-- JavaScript `s.includes(sub)` (substring containment). -/
def jsIncludes : List Char → List Char → Bool
  | [], needle => jsStartsWith needle []
  | h :: t, needle => jsStartsWith needle (h :: t) || jsIncludes t needle

/-- JavaScript `s.toLowerCase()` (character-wise lowering). -/
def jsToLower (s : List Char) : List Char :=
  s.map Char.toLower

/-! ## Parsed JSON values

`JSON.parse` output is modelled by `Json`; a `JSON.parse` call that
throws is modelled by `Option.none` at its use sites. -/

inductive Json where
  | null
  | bool (b : Bool)
  | num (q : ℚ)
  | str (s : String)
  | arr (elems : List Json)
  | obj (fields : List (String × Json))
  deriving Repr

/-- JavaScript truthiness of a parsed JSON value (`null`, `false`, `0`
and `""` are falsy; arrays and objects are always truthy). -/
def jsTruthy : Json → Bool
  | Json.null => false
  | Json.bool b => b
  | Json.num q => q ≠ 0
  | Json.str s => s ≠ ""
  | Json.arr _ => true
  | Json.obj _ => true

/-- `v || dflt` on an optional JSON value (`none` is `undefined`). -/
def jsOr (v : Option Json) (dflt : Json) : Json :=
  match v with
  | none => dflt
  | some x => if jsTruthy x then x else dflt

/-- `v || undefined` on an optional JSON value. -/
def jsOrUndef (v : Option Json) : Option Json :=
  match v with
  | none => none
  | some x => if jsTruthy x then some x else none

/-- First-match association lookup on a parsed JSON object's fields. -/
def lookupField : List (String × Json) → String → Option Json
  | [], _ => none
  | (k, v) :: rest, key => if k = key then some v else lookupField rest key

/-- JavaScript property access `v.key`: field lookup on objects,
`undefined` (here `none`) on primitives and arrays, and a thrown
`TypeError` (here `Except.error`) on `null`. -/
def getField (v : Json) (key : String) : Except Unit (Option Json) :=
  match v with
  | Json.obj fields => Except.ok (lookupField fields key)
  | Json.null => Except.error ()
  | _ => Except.ok none

/-! ## Error codes and results (`src/lib/errors.ts`, `src/types`) -/

inductive ErrorCode where
  | AI_UNAVAILABLE
  | AI_RATE_LIMITED
  | AI_INVALID_RESPONSE
  | AI_MODEL_NOT_FOUND
  | SCRAPER_FAILED
  | SCRAPER_TIMEOUT
  | SCRAPER_RATE_LIMITED
  | NO_DATA_AVAILABLE
  | INVALID_DATA_FORMAT
  | MISSING_ENV_VAR
  | INVALID_CONFIG
  | UNKNOWN_ERROR
  deriving DecidableEq, Repr

/-- `Result<T>` from `src/types`: success with data, or an `AppError`
carrying a code and a message. -/
inductive Result (α : Type) where
  | ok (data : α)
  | err (code : ErrorCode) (message : String)
  deriving Repr

/-! ## Generation Client (`src/generator/tweet-generator.ts`) -/

namespace TweetGen

/-- The synthesized id `draft-${Date.now()}-${index}` for a draft
missing its `id` field. -/
def synthId (nowMs : Nat) (index : Nat) : String :=
  "draft-" ++ toString nowMs ++ "-" ++ toString index

/-- One entry of `parseResponse`'s output: the object literal built for
each parsed draft. Field values are whatever JSON value survived the
`||` defaulting, so they stay `Json`. -/
structure RepairedDraft where
  id : Json
  content : Json
  source : Json
  context : Json
  confidence : Json
  createdAt : Json
  metadata : Option Json
  deriving Repr

/-- The repair of one parsed array entry (the callback of
`parsed.map` in `parseResponse`, lines 274–282): each field is read
with JavaScript property access and defaulted with `||`. A `null`
entry throws a `TypeError` on the first access. -/
def repairEntry (nowMs : Nat) (nowIso : String) (index : Nat) (e : Json) :
    Except Unit RepairedDraft := do
  let idv ← getField e "id"
  let contentv ← getField e "content"
  let sourcev ← getField e "source"
  let contextv ← getField e "context"
  let confidencev ← getField e "confidence"
  let createdAtv ← getField e "createdAt"
  let metadatav ← getField e "metadata"
  Except.ok
    { id := jsOr idv (Json.str (synthId nowMs index))
      content := jsOr contentv (Json.str "")
      source := jsOr sourcev (Json.str "mixed")
      context := jsOr contextv (Json.str "")
      confidence := jsOr confidencev (Json.num (1/2))
      createdAt := jsOr createdAtv (Json.str nowIso)
      metadata := jsOrUndef metadatav }

/-- `parsed.map(repair)` with indices, propagating a thrown
`TypeError` out of the whole map. -/
def repairAll (nowMs : Nat) (nowIso : String) : Nat → List Json →
    Except Unit (List RepairedDraft)
  | _, [] => Except.ok []
  | index, e :: es =>
    match repairEntry nowMs nowIso index e with
    | Except.error u => Except.error u
    | Except.ok d =>
      match repairAll nowMs nowIso (index + 1) es with
      | Except.error u => Except.error u
      | Except.ok ds => Except.ok (d :: ds)

/-- The code-fence markers stripped by `parseResponse`. -/
def fenceJson : List Char := "```json".data

/-- The three-backtick fence marker. -/
def fenceBare : List Char := "```".data

/-- The text clean-up of `parseResponse` (lines 255–266): trim, strip a
leading ```` ```json ```` or ```` ``` ````, strip a trailing
```` ``` ````, and trim again (the inner `jsonText.trim()` passed to
`JSON.parse`). `slice(7)` / `slice(3)` drop from the front and
`slice(0, -3)` keeps all but the last three characters. -/
def cleanResponseText (text : List Char) : List Char :=
  let t0 := jsTrim text
  let t1 :=
    if jsStartsWith fenceJson t0 then t0.drop 7
    else if jsStartsWith fenceBare t0 then t0.drop 3
    else t0
  let t2 := if jsEndsWith fenceBare t1 then t1.take (t1.length - 3) else t1
  jsTrim t2

/-- The post-`JSON.parse` half of `parseResponse` (lines 266–285):
`none` when the parse threw, `null` when the parsed value is not an
array, otherwise the repaired entries — with any `TypeError` thrown
inside the map caught by the surrounding `try`, yielding `null`.
Both `null` returns and the caught throw are `none` here. -/
def repairParsed (nowMs : Nat) (nowIso : String) (parsed : Option Json) :
    Option (List RepairedDraft) :=
  match parsed with
  | none => none
  | some (Json.arr es) =>
    match repairAll nowMs nowIso 0 es with
    | Except.ok ds => some ds
    | Except.error _ => none
  | some _ => none

/-- `parseResponse` (lines 253–286) with `JSON.parse` abstracted as
`parse` (returning `none` when it would throw). -/
def parseResponse (parse : List Char → Option Json) (nowMs : Nat)
    (nowIso : String) (text : List Char) : Option (List RepairedDraft) :=
  repairParsed nowMs nowIso (parse (cleanResponseText text))

/-- A content block of the Anthropic API response. -/
inductive ContentBlock where
  | text (s : List Char)
  | other
  deriving Repr

/-- The successful Anthropic API response data used by
`generateTweets`. -/
structure ApiResponse where
  content : List ContentBlock
  inputTokens : Nat
  outputTokens : Nat

/-- The error thrown by the Anthropic SDK, as inspected by the catch
branch of `generateTweets`: an optional HTTP status and message. -/
structure ApiError where
  status : Option Nat
  message : Option String

/-- `response.content.find(block => block.type === "text")`. -/
def firstTextBlock : List ContentBlock → Option (List Char)
  | [] => none
  | ContentBlock.text s :: _ => some s
  | ContentBlock.other :: rest => firstTextBlock rest

/-- `apiError.message || "Unknown error during generation"`. -/
def jsOrMessage (m : Option String) : String :=
  match m with
  | none => "Unknown error during generation"
  | some s => if s = "" then "Unknown error during generation" else s

/-- `GenerationOutput` from `src/types`. -/
structure GenerationOutput where
  drafts : List RepairedDraft
  tokensUsed : Nat
  modelUsed : String
  generatedAt : String

/-- The catch branch of `generateTweets` (lines 65–84): classify the
thrown API error by HTTP status. -/
def classifyApiError (modelName : String) (e : ApiError) :
    Result GenerationOutput :=
  if e.status = some 401 ∨ e.status = some 403 then
    Result.err ErrorCode.AI_UNAVAILABLE "Invalid or missing API key"
  else if e.status = some 429 then
    Result.err ErrorCode.AI_RATE_LIMITED "Rate limited by AI provider"
  else if e.status = some 404 then
    Result.err ErrorCode.AI_MODEL_NOT_FOUND ("Model not found: " ++ modelName)
  else
    Result.err ErrorCode.UNKNOWN_ERROR (jsOrMessage e.message)

/-- `generateTweets` (lines 32–85) with the single
`anthropic.messages.create` call's outcome passed in as `api` (the
function performs exactly one backend call per invocation and no
retry: its whole behaviour is a function of that one outcome). -/
def generateTweets (modelName : String) (parse : List Char → Option Json)
    (nowMs : Nat) (nowIso : String) (api : Except ApiError ApiResponse) :
    Result GenerationOutput :=
  match api with
  | Except.error e => classifyApiError modelName e
  | Except.ok resp =>
    match firstTextBlock resp.content with
    | none => Result.err ErrorCode.AI_INVALID_RESPONSE "No text response from Claude"
    | some t =>
      match parseResponse parse nowMs nowIso t with
      | none =>
        Result.err ErrorCode.AI_INVALID_RESPONSE "Failed to parse AI response as JSON"
      | some ds =>
        Result.ok
          { drafts := ds
            tokensUsed := resp.inputTokens + resp.outputTokens
            modelUsed := modelName
            generatedAt := nowIso }

end TweetGen

/-! ## News connector (`src/scrapers/news.ts`) -/

namespace News

/-- The keyword list `AVALANCHE_KEYWORDS`. -/
def AVALANCHE_KEYWORDS : List (List Char) :=
  ["avalanche".data, "avax".data, "ava labs".data, "subnet".data,
   "c-chain".data, "p-chain".data, "x-chain".data, "avalanchego".data]

/-- `MAX_NEWS_AGE_MS`: seven days in milliseconds. -/
def MAX_NEWS_AGE_MS : Int := 7 * 24 * 60 * 60 * 1000

/-- `isAvalancheRelated` (lines 56–59): some keyword occurs in the
lower-cased text. -/
def isAvalancheRelated (text : List Char) : Bool :=
  AVALANCHE_KEYWORDS.any fun keyword => jsIncludes (jsToLower text) keyword

/-- The keyword-weight fold inside `calculateRelevance`: 0.3 for
`avalanche`/`avax`, 0.1 for the others, summed over matched
keywords. -/
def relevanceSum (text : List Char) : List (List Char) → ℚ
  | [] => 0
  | keyword :: rest =>
    (if jsIncludes text keyword then
      (if keyword = "avalanche".data ∨ keyword = "avax".data then 3/10 else 1/10)
     else 0) + relevanceSum text rest

/-- `calculateRelevance` (lines 64–75): the weighted keyword score on
the lower-cased `` `${title} ${summary}` `` text, capped at 1. -/
def calculateRelevance (title summary : List Char) : ℚ :=
  min (relevanceSum (jsToLower (title ++ [' '] ++ summary)) AVALANCHE_KEYWORDS) 1

/-- `isFresh` (lines 80–85) with `new Date(...)` abstracted by
`parseDate` and the current time by `now` (both epoch milliseconds):
the item's age is at most the seven-day window. -/
def isFresh (parseDate : List Char → Int) (now : Int) (dateStr : List Char) : Bool :=
  now - parseDate dateStr ≤ MAX_NEWS_AGE_MS

/-- One parsed RSS entry (`parsed.items` element): the fields read by
`scrapeNews`, each optional and possibly empty (JavaScript `||`
treats a missing field and an empty string alike). -/
structure RssItem where
  title : Option (List Char)
  contentSnippet : Option (List Char)
  content : Option (List Char)
  pubDate : Option (List Char)
  link : Option (List Char)

/-- `v || dflt` on an optional string. -/
def jsOrStr (v : Option (List Char)) (dflt : List Char) : List Char :=
  match v with
  | none => dflt
  | some s => if s = [] then dflt else s

/-- `NewsItem` from `src/types` as produced by `scrapeNews` (its
`relevanceScore` is always set there). -/
structure NewsItem where
  title : List Char
  summary : List Char
  url : List Char
  source : List Char
  publishedAt : List Char
  relevanceScore : ℚ
  deriving Repr, DecidableEq

/-- The per-entry body of the `scrapeNews` feed loop (lines 98–121):
default the fields, skip stale entries, skip entries failing the
keyword gate on `title + summary`, otherwise build the `NewsItem`
with the summary truncated to 500 characters. -/
def processItem (parseDate : List Char → Int) (now : Int) (nowIso : List Char)
    (sourceName : List Char) (item : RssItem) : Option NewsItem :=
  let title := jsOrStr item.title []
  let summary := jsOrStr item.contentSnippet (jsOrStr item.content [])
  let publishedAt := jsOrStr item.pubDate nowIso
  if ¬ isFresh parseDate now publishedAt then none
  else if ¬ isAvalancheRelated (title ++ summary) then none
  else some
    { title := title
      summary := summary.take 500
      url := jsOrStr item.link []
      source := sourceName
      publishedAt := publishedAt
      relevanceScore := calculateRelevance title summary }

/-- One feed's fetch outcome: `none` when `parser.parseURL` threw
(that feed is logged and skipped), otherwise the source name and
parsed items. -/
def FeedResult : Type := Option (List Char × List RssItem)

/-- The items one feed contributes: none when its fetch threw, else
the fresh, keyword-matching ones among its first 30 entries. -/
def feedItems (parseDate : List Char → Int) (now : Int) (nowIso : List Char)
    (feed : FeedResult) : List NewsItem :=
  match feed with
  | none => []
  | some (sourceName, items) =>
    (items.take 30).filterMap (processItem parseDate now nowIso sourceName)

/-- The accumulation loop of `scrapeNews` (lines 94–128): per feed,
take the first 30 items and keep the fresh, keyword-matching ones. -/
def allNewsOf (parseDate : List Char → Int) (now : Int) (nowIso : List Char)
    (feeds : List FeedResult) : List NewsItem :=
  feeds.foldl (fun acc feed => acc ++ feedItems parseDate now nowIso feed) []

/-- `scrapeNews` (lines 90–143): an empty aggregate is an empty
success; otherwise sort by parsed publish time descending (modelled by
a sort under the comparator's order) and return the first ten. -/
def scrapeNews (parseDate : List Char → Int) (now : Int) (nowIso : List Char)
    (feeds : List FeedResult) : Result (List NewsItem) :=
  let allNews := allNewsOf parseDate now nowIso feeds
  if allNews.length = 0 then Result.ok []
  else
    Result.ok
      ((List.insertionSort
        (fun a b => parseDate b.publishedAt ≤ parseDate a.publishedAt) allNews).take 10)

end News

/-! ## Social connector (`src/scrapers/twitter.ts`) -/

namespace Twitter

/-- The placeholder value guarding `TWITTER_BEARER_TOKEN`. -/
def placeholderToken : String := "your-twitter-bearer-token"

/-- `TwitterPost` from `src/types`. -/
structure TwitterPost where
  id : String
  author : String
  authorHandle : String
  content : String
  postedAt : String
  engagement : Option (Nat × Nat × Nat)
  deriving Repr

/-- A tweet object of the Twitter API response. -/
structure ApiTweet where
  id : String
  text : String
  created_at : String
  public_metrics : Option (Nat × Nat × Nat)

/-- The network oracle for one monitored account: the user-lookup
fetch outcome and, when reached, the tweets fetch outcome. -/
structure AccountFetch where
  username : String
  userFetchOk : Bool
  userName : Option String
  tweetsFetchOk : Bool
  tweetsData : Option (List ApiTweet)

/-- The per-account body of the `scrapeTwitter` loop (lines 85–146),
returning the posts pushed for that account and the number of network
requests issued (one user lookup, plus one tweets fetch when the user
resolved). -/
def fetchAccount (acct : AccountFetch) : List TwitterPost × Nat :=
  if ¬ acct.userFetchOk then ([], 1)
  else
    match acct.userName with
    | none => ([], 1)
    | some name =>
      if ¬ acct.tweetsFetchOk then ([], 2)
      else
        match acct.tweetsData with
        | none => ([], 2)
        | some tweets =>
          (tweets.map fun t =>
            { id := t.id
              author := name
              authorHandle := acct.username
              content := t.text
              postedAt := t.created_at
              engagement := t.public_metrics }, 2)

/-- The posts accumulated over all monitored accounts. -/
def collectedPosts (accounts : List AccountFetch) : List TwitterPost :=
  accounts.foldl (fun acc a => acc ++ (fetchAccount a).1) []

/-- The token guard of `scrapeTwitter` (lines 77–81):
`!bearerToken || bearerToken === "your-twitter-bearer-token"`, with
`none` for an unset variable and `""` the only falsy string. -/
def tokenMissing (bearerToken : Option String) : Bool :=
  bearerToken = none ∨ bearerToken = some "" ∨ bearerToken = some placeholderToken

/-- `scrapeTwitter` (lines 76–156), returning the result together with
the number of network requests made. The guard fires before any
request; an empty accumulation is the `NO_DATA_AVAILABLE` failure;
otherwise the posts sorted most-recent-first. -/
def scrapeTwitter (parseDate : String → Int) (bearerToken : Option String)
    (accounts : List AccountFetch) : Result (List TwitterPost) × Nat :=
  if tokenMissing bearerToken then
    (Result.err ErrorCode.MISSING_ENV_VAR "Twitter bearer token not configured", 0)
  else
    let requests := accounts.foldl (fun n a => n + (fetchAccount a).2) 0
    let allTweets := collectedPosts accounts
    if allTweets.length = 0 then
      (Result.err ErrorCode.NO_DATA_AVAILABLE "No tweets found from monitored accounts",
       requests)
    else
      (Result.ok
        (List.insertionSort
          (fun a b => parseDate b.postedAt ≤ parseDate a.postedAt) allTweets),
       requests)

end Twitter

/-! ## Metrics connector (`src/scrapers/onchain.ts`) -/

namespace Onchain

/-- One point of the DeFiLlama `historicalChainTvl` series. -/
structure TvlPoint where
  date : Int
  tvl : ℚ
  deriving Repr, DecidableEq

/-- JavaScript array indexing `l[i]` for a possibly negative or
out-of-range integer index: `undefined` (`none`) outside the range. -/
def jsIndex {α : Type} (l : List α) (i : Int) : Option α :=
  if 0 ≤ i ∧ i < (l.length : Int) then l.get? i.toNat else none

/-- `history[history.length - 1].tvl`, the current TVL (the guard
`history.length > 1` makes the access safe; 0 is a dead default). -/
def currentTvlOf (history : List TvlPoint) : ℚ :=
  ((jsIndex history ((history.length : Int) - 1)).map TvlPoint.tvl).getD 0

/-- `history[history.length - back]?.tvl || currentTvl`: the reference
point for a percentage change, falling back to the current value when
the point is absent — or, through `||`, when its stored TVL is 0. -/
def tvlRef (history : List TvlPoint) (back : Nat) (currentTvl : ℚ) : ℚ :=
  match jsIndex history ((history.length : Int) - (back : Int)) with
  | some p => if p.tvl = 0 then currentTvl else p.tvl
  | none => currentTvl

/-- The 24h divisor `tvl24hAgo` of `scrapeOnchainData` (line 76). -/
def tvl24hAgoOf (history : List TvlPoint) : ℚ :=
  tvlRef history 2 (currentTvlOf history)

/-- The 7d divisor `tvl7dAgo` of `scrapeOnchainData` (line 77). -/
def tvl7dAgoOf (history : List TvlPoint) : ℚ :=
  tvlRef history 8 (currentTvlOf history)

/-- The TVL-change computation of `scrapeOnchainData` (lines 67–81):
both changes stay 0 unless the history fetch succeeded with more than
one point; otherwise `((current - ref) / ref) * 100` for the 24h and
7d reference points. -/
def tvlChanges (historyOk : Bool) (history : List TvlPoint) : ℚ × ℚ :=
  if historyOk ∧ history.length > 1 then
    let currentTvl := currentTvlOf history
    let tvl24hAgo := tvl24hAgoOf history
    let tvl7dAgo := tvl7dAgoOf history
    (((currentTvl - tvl24hAgo) / tvl24hAgo) * 100,
     ((currentTvl - tvl7dAgo) / tvl7dAgo) * 100)
  else (0, 0)

/-- The claim's safety predicate: either the change computation is not
reached, or both divisors are nonzero (JavaScript would otherwise
produce `NaN` from `0 / 0`, a non-finite change). -/
def divisionSafe (historyOk : Bool) (history : List TvlPoint) : Prop :=
  ¬ (historyOk ∧ history.length > 1) ∨
    (tvl24hAgoOf history ≠ 0 ∧ tvl7dAgoOf history ≠ 0)

end Onchain

/-! ## Output store (`saveDrafts` in `src/generator/tweet-generator.ts`)
and the drafts PATCH route (`src/app/api/drafts` routes) -/

namespace Store

/-- A persisted `TweetDraft` (from `src/types`): the draft as stored in
and read back from a batch file. -/
structure StoredDraft where
  id : String
  content : String
  source : String
  context : String
  confidence : ℚ
  createdAt : String
  metadata : Option Json
  deriving Repr

/-- `TweetDraftsOutput` from `src/types`: one batch file's JSON
document. The generation input is left polymorphic (`ι`) — the store
persists it verbatim. -/
structure TweetDraftsOutput (ι : Type) where
  date : List Char
  generatedAt : List Char
  drafts : List StoredDraft
  input : Option ι

/-- `new Date().toISOString().split("T")[0]`: the calendar-date key,
i.e. everything before the first `T` of the ISO timestamp. -/
def dateKey (nowIso : List Char) : List Char :=
  nowIso.takeWhile fun c => c ≠ 'T'

/-- The filesystem visible to `saveDrafts` and the drafts routes: a map
from file name (within the drafts directory) to parsed batch
document. -/
def Fs (ι : Type) : Type := List Char → Option (TweetDraftsOutput ι)

/-- `saveDrafts` (lines 291–316): build `${date}.json` from the current
time, write the batch document there (creating or replacing that one
file), and return the path. -/
def saveDrafts {ι : Type} (nowIso genIso : List Char)
    (drafts : List StoredDraft) (input : Option ι) (fs : Fs ι) :
    Fs ι × Result (List Char) :=
  let date := dateKey nowIso
  let filePath := date ++ ".json".data
  let output : TweetDraftsOutput ι :=
    { date := date, generatedAt := genIso, drafts := drafts, input := input }
  (fun p => if p = filePath then some output else fs p, Result.ok filePath)

end Store

namespace DraftsRoute

open Store

/-- The HTTP outcome of the PATCH handler: the updated draft, a 400 for
missing content, or a 404 when no draft carries the id. -/
inductive PatchResponse where
  | ok (draft : StoredDraft)
  | badRequest
  | notFound
  deriving Repr

/-- `data.drafts.findIndex(d => d.id === id)` followed by the in-place
`data.drafts[draftIndex].content = content`: replace the content of
the first draft whose id matches, returning the new list and the
updated draft, or `none` when no draft matches. -/
def setFirstContent : List StoredDraft → String → String →
    Option (List StoredDraft × StoredDraft)
  | [], _, _ => none
  | d :: rest, id, c =>
    if d.id = id then
      let d2 := { d with content := c }
      some (d2 :: rest, d2)
    else
      match setFirstContent rest id c with
      | some (rest2, hit) => some (d :: rest2, hit)
      | none => none

/-- The file loop of the PATCH handler (lines 189–202): visit the batch
files in order, rewrite the first file containing a matching draft,
and leave every other file untouched. -/
def patchFiles {ι : Type} : List (List Char × TweetDraftsOutput ι) → String → String →
    List (List Char × TweetDraftsOutput ι) × Option StoredDraft
  | [], _, _ => ([], none)
  | (name, data) :: rest, id, c =>
    match setFirstContent data.drafts id c with
    | some (ds, hit) => ((name, { data with drafts := ds }) :: rest, some hit)
    | none =>
      let r := patchFiles rest id c
      ((name, data) :: r.1, r.2)

/-- The PATCH handler (lines 169–212) over the parsed batch files:
reject an empty content with a 400 before touching anything, update
the first matching draft, or answer 404 leaving every file as it
was. -/
def patchHandler {ι : Type} (files : List (List Char × TweetDraftsOutput ι))
    (id content : String) :
    List (List Char × TweetDraftsOutput ι) × PatchResponse :=
  if content = "" then (files, PatchResponse.badRequest)
  else
    match patchFiles files id content with
    | (files2, some hit) => (files2, PatchResponse.ok hit)
    | (_, none) => (files, PatchResponse.notFound)

end DraftsRoute

/-! ## Theorems -/

/-- `dropWhile` twice is `dropWhile` once. -/
lemma dropWhile_idem (p : Char → Bool) (l : List Char) :
    (l.dropWhile p).dropWhile p = l.dropWhile p := by
  induction l with
  | nil => rfl
  | cons a t ih =>
    by_cases h : p a
    · simp [List.dropWhile_cons, h, ih]
    · simp [List.dropWhile_cons, h]

/-- A list whose head fails the predicate is untouched by
`dropWhile`. -/
lemma dropWhile_eq_self_of_head (p : Char → Bool) (l : List Char)
    (h : ∀ c, l.head? = some c → p c = false) : l.dropWhile p = l := by
  cases l with
  | nil => rfl
  | cons a t =>
    rw [List.dropWhile_cons, if_neg]
    intro hpa
    rw [h a rfl] at hpa
    exact Bool.false_ne_true hpa

/-- The head surviving `dropWhile` fails the predicate. -/
lemma dropWhile_head_false (p : Char → Bool) :
    ∀ (l : List Char) (c : Char), (l.dropWhile p).head? = some c → p c = false := by
  intro l
  induction l with
  | nil => intro c h; exact absurd h (by simp)
  | cons a t ih =>
    intro c h
    rw [List.dropWhile_cons] at h
    split at h
    · exact ih c h
    · rename_i hpa
      rw [List.head?_cons, Option.some_inj] at h
      rw [← h]
      exact Bool.eq_false_iff.mpr hpa

/-- `dropWhile` preserves the last element (or empties the list). -/
lemma getLast?_dropWhile (p : Char → Bool) :
    ∀ l : List Char, l.dropWhile p = [] ∨
      (l.dropWhile p).getLast? = l.getLast? := by
  intro l
  induction l with
  | nil => exact Or.inl rfl
  | cons a t ih =>
    rw [List.dropWhile_cons]
    split
    · cases t with
      | nil => exact Or.inl rfl
      | cons b t' =>
        rcases ih with h | h
        · exact Or.inl h
        · exact Or.inr (by rw [h, List.getLast?_cons_cons])
    · exact Or.inr rfl

/-- The head of a trimmed string is never whitespace. -/
lemma head_jsTrim_not_ws (s : List Char) :
    ∀ c, (jsTrim s).head? = some c → jsIsWhitespace c = false := by
  intro c h
  rw [jsTrim, List.head?_reverse] at h
  rcases getLast?_dropWhile jsIsWhitespace ((s.dropWhile jsIsWhitespace).reverse)
    with h0 | h0
  · rw [h0] at h
    exact absurd h (by simp)
  · rw [h0, List.getLast?_reverse] at h
    exact dropWhile_head_false jsIsWhitespace _ c h

/-- JavaScript `trim` is idempotent. -/
lemma jsTrim_idem (s : List Char) : jsTrim (jsTrim s) = jsTrim s := by
  have h1 : (jsTrim s).dropWhile jsIsWhitespace = jsTrim s :=
    dropWhile_eq_self_of_head _ _ (head_jsTrim_not_ws s)
  show (((jsTrim s).dropWhile jsIsWhitespace).reverse.dropWhile
      jsIsWhitespace).reverse = jsTrim s
  rw [h1]
  have h2 : (jsTrim s).reverse =
      List.dropWhile jsIsWhitespace ((List.dropWhile jsIsWhitespace s).reverse) := by
    show ((((s.dropWhile jsIsWhitespace).reverse.dropWhile
      jsIsWhitespace).reverse).reverse) = _
    rw [List.reverse_reverse]
  rw [h2, dropWhile_idem]
  rfl

/-- `isPrefixOf` holds on an appended extension of the prefix. -/
lemma isPrefixOf_append_self (p rest : List Char) :
    p.isPrefixOf (p ++ rest) = true := by
  rw [ List.isPrefixOf_iff_prefix]
  exact List.prefix_append p rest

/-- A prefix of a prefix is a prefix: shrinking the pattern preserves
`isPrefixOf`. -/
lemma isPrefixOf_of_append_isPrefixOf (a b t : List Char)
    (h : (a ++ b).isPrefixOf t = true) : a.isPrefixOf t = true := by
  rw [ List.isPrefixOf_iff_prefix] at h ⊢
  exact (List.prefix_append a b).trans h

/-- `endsWith` holds on an appended extension of the suffix. -/
lemma jsEndsWith_append_self (suf s : List Char) :
    jsEndsWith suf (s ++ suf) = true := by
  rw [jsEndsWith, List.isSuffixOf, List.reverse_append]
  exact isPrefixOf_append_self _ _

/-- Appending the same list on the left of pattern and target leaves
`isPrefixOf` unchanged. -/
lemma isPrefixOf_append_both : ∀ (a b x : List Char),
    (a ++ b).isPrefixOf (a ++ x) = b.isPrefixOf x := by
  intro a
  induction a with
  | nil => intro b x; rfl
  | cons c a' ih =>
    intro b x
    simp only [List.cons_append, List.isPrefixOf, List.append_eq, ih,
      beq_self_eq_true, Bool.true_and]

/-- If `json` is a prefix of a text extended by the backtick fence, it
already is a prefix of the text: the fence supplies no `json`
characters. -/
lemma json_isPrefixOf_of_append_fence :
    ∀ s : List Char, "json".data.isPrefixOf (s ++ TweetGen.fenceBare) = true →
      "json".data.isPrefixOf s = true := by
  intro s h
  match s with
  | [] => exact absurd h (by decide)
  | [a] =>
    simp +decide only [List.cons_append, List.nil_append, List.isPrefixOf,
      Bool.and_eq_true] at h
    exact h.2.elim
  | [a, b] =>
    simp +decide only [List.cons_append, List.nil_append, List.isPrefixOf,
      Bool.and_eq_true] at h
    exact h.2.2.elim
  | [a, b, c] =>
    simp +decide only [List.cons_append, List.nil_append, List.isPrefixOf,
      Bool.and_eq_true] at h
    exact h.2.2.2.elim
  | a :: b :: c :: d :: s4 =>
    simp only [List.cons_append, List.isPrefixOf, Bool.and_eq_true] at h ⊢
    exact ⟨h.1, h.2.1, h.2.2.1, h.2.2.2.1, trivial⟩

/-- The fenced wrapper text has no surrounding whitespace to trim: it
starts and ends with a backtick. -/
lemma jsTrim_fence_wrapped (s : List Char) :
    jsTrim (TweetGen.fenceJson ++ s ++ TweetGen.fenceBare) =
      TweetGen.fenceJson ++ s ++ TweetGen.fenceBare := by
  have hj : TweetGen.fenceJson =
      '\x60' :: '\x60' :: '\x60' :: 'j' :: 's' :: 'o' :: 'n' :: [] := rfl
  have hb : TweetGen.fenceBare = '\x60' :: '\x60' :: '\x60' :: [] := rfl
  rw [jsTrim, hj, hb]
  simp +decide [List.dropWhile_cons, List.reverse_append, jsIsWhitespace]

/-- Stripping the fences off an exactly wrapped text yields the
trimmed inner text, i.e. the exact string handed to `JSON.parse`. -/
lemma cleanResponseText_wrapped (s : List Char) :
    TweetGen.cleanResponseText
        (TweetGen.fenceJson ++ s ++ TweetGen.fenceBare) = jsTrim s := by
  simp only [TweetGen.cleanResponseText]
  rw [jsTrim_fence_wrapped]
  rw [List.append_assoc]
  rw [show jsStartsWith TweetGen.fenceJson
      (TweetGen.fenceJson ++ (s ++ TweetGen.fenceBare)) = true from
    isPrefixOf_append_self _ _]
  rw [if_pos rfl]
  rw [show (7 : Nat) = TweetGen.fenceJson.length from rfl, List.drop_left]
  rw [jsEndsWith_append_self TweetGen.fenceBare s, if_pos rfl]
  rw [List.length_append,
    show TweetGen.fenceBare.length = 3 from rfl,
    Nat.add_sub_cancel, List.take_left]

/-- The bare-fence wrapper text also has no surrounding whitespace to
trim. -/
lemma jsTrim_bare_wrapped (s : List Char) :
    jsTrim (TweetGen.fenceBare ++ s ++ TweetGen.fenceBare) =
      TweetGen.fenceBare ++ s ++ TweetGen.fenceBare := by
  have hb : TweetGen.fenceBare = '\x60' :: '\x60' :: '\x60' :: [] := rfl
  rw [jsTrim, hb]
  simp +decide [List.dropWhile_cons, List.reverse_append, jsIsWhitespace]

/-- Stripping a bare ```` ``` ```` wrapping (the `slice(3)` branch)
also yields the trimmed inner text, provided the inner text does not
begin with the characters `json` (which would make the wrapper a
```` ```json ```` fence instead). -/
lemma cleanResponseText_bare_wrapped (s : List Char)
    (h3 : "json".data.isPrefixOf s = false) :
    TweetGen.cleanResponseText
        (TweetGen.fenceBare ++ s ++ TweetGen.fenceBare) = jsTrim s := by
  have hjson : jsStartsWith TweetGen.fenceJson
      (TweetGen.fenceBare ++ (s ++ TweetGen.fenceBare)) = false := by
    cases hc : jsStartsWith TweetGen.fenceJson
      (TweetGen.fenceBare ++ (s ++ TweetGen.fenceBare))
    · rfl
    · rw [jsStartsWith,
        show TweetGen.fenceJson = TweetGen.fenceBare ++ "json".data from rfl,
        isPrefixOf_append_both] at hc
      have h4 := json_isPrefixOf_of_append_fence s hc
      rw [h3] at h4
      exact absurd h4 Bool.false_ne_true
  simp only [TweetGen.cleanResponseText]
  rw [jsTrim_bare_wrapped]
  rw [List.append_assoc]
  rw [hjson, if_neg Bool.false_ne_true]
  rw [show jsStartsWith TweetGen.fenceBare
      (TweetGen.fenceBare ++ (s ++ TweetGen.fenceBare)) = true from
    isPrefixOf_append_self _ _]
  rw [if_pos rfl]
  rw [show (3 : Nat) = TweetGen.fenceBare.length from rfl, List.drop_left]
  rw [jsEndsWith_append_self TweetGen.fenceBare s, if_pos rfl]
  rw [List.length_append,
    show TweetGen.fenceBare.length = 3 from rfl,
    Nat.add_sub_cancel, List.take_left]

/-- A text that does not itself start or end with a fence marker is
only trimmed. -/
lemma cleanResponseText_unwrapped (s : List Char)
    (h1 : jsStartsWith TweetGen.fenceBare (jsTrim s) = false)
    (h2 : jsEndsWith TweetGen.fenceBare (jsTrim s) = false) :
    TweetGen.cleanResponseText s = jsTrim s := by
  have h1' : jsStartsWith TweetGen.fenceJson (jsTrim s) = false := by
    cases hc : jsStartsWith TweetGen.fenceJson (jsTrim s)
    · rfl
    · have := isPrefixOf_of_append_isPrefixOf TweetGen.fenceBare "json".data
        (jsTrim s) hc
      rw [jsStartsWith] at h1
      rw [h1] at this
      exact absurd this Bool.false_ne_true
  simp only [TweetGen.cleanResponseText]
  simp [h1', h1, h2, jsTrim_idem]

/-- C3: fence handling is transparent — for any abstract `JSON.parse`
and any inner text that does not itself carry fence markers at its
trimmed edges, parsing the response wrapped in ```` ```json … ``` ````
markers gives exactly the same result as parsing the unwrapped text
directly; and the same holds for a bare ```` ``` … ``` ```` wrapping
(the `slice(3)` branch) whenever the inner text does not begin with
the characters `json` (a parseable JSON array, which starts with
whitespace or `[`, never does). -/
theorem parseResponse_fence_transparent (parse : List Char → Option Json)
    (nowMs : Nat) (nowIso : String) (s : List Char)
    (h1 : jsStartsWith TweetGen.fenceBare (jsTrim s) = false)
    (h2 : jsEndsWith TweetGen.fenceBare (jsTrim s) = false) :
    (TweetGen.parseResponse parse nowMs nowIso
        (TweetGen.fenceJson ++ s ++ TweetGen.fenceBare) =
      TweetGen.parseResponse parse nowMs nowIso s) ∧
    ("json".data.isPrefixOf s = false →
      TweetGen.parseResponse parse nowMs nowIso
          (TweetGen.fenceBare ++ s ++ TweetGen.fenceBare) =
        TweetGen.parseResponse parse nowMs nowIso s) := by
  constructor
  · unfold TweetGen.parseResponse
    rw [cleanResponseText_wrapped, cleanResponseText_unwrapped s h1 h2]
  · intro h3
    unfold TweetGen.parseResponse
    rw [cleanResponseText_bare_wrapped s h3, cleanResponseText_unwrapped s h1 h2]

/-- Witness for C3: wrapping the array text `[1]` in a ```` ```json ````
fence — or in a bare ```` ``` ```` fence — parses identically to the
bare text. -/
theorem parseResponse_fence_transparent_witness :
    (TweetGen.parseResponse
        (fun t => if t = "[1]".data then some (Json.arr [Json.num 1]) else none)
        0 "T" (TweetGen.fenceJson ++ "[1]".data ++ TweetGen.fenceBare) =
      TweetGen.parseResponse
        (fun t => if t = "[1]".data then some (Json.arr [Json.num 1]) else none)
        0 "T" "[1]".data) ∧
    (TweetGen.parseResponse
        (fun t => if t = "[1]".data then some (Json.arr [Json.num 1]) else none)
        0 "T" (TweetGen.fenceBare ++ "[1]".data ++ TweetGen.fenceBare) =
      TweetGen.parseResponse
        (fun t => if t = "[1]".data then some (Json.arr [Json.num 1]) else none)
        0 "T" "[1]".data) :=
  ⟨(parseResponse_fence_transparent
      (fun t => if t = "[1]".data then some (Json.arr [Json.num 1]) else none)
      0 "T" "[1]".data rfl rfl).1,
   (parseResponse_fence_transparent
      (fun t => if t = "[1]".data then some (Json.arr [Json.num 1]) else none)
      0 "T" "[1]".data rfl rfl).2 rfl⟩

/-- Every keyword contribution is nonnegative, so the weighted sum
is. -/
lemma relevanceSum_nonneg (text : List Char) :
    ∀ kws : List (List Char), 0 ≤ News.relevanceSum text kws := by
  intro kws
  induction kws with
  | nil => simp [News.relevanceSum]
  | cons k t ih =>
    rw [News.relevanceSum]
    have h0 : (0 : ℚ) ≤
        if jsIncludes text k then
          (if k = "avalanche".data ∨ k = "avax".data then 3/10 else 1/10)
        else 0 := by
      split
      · split <;> norm_num
      · norm_num
    exact add_nonneg h0 ih

/-- A matched keyword contributes at least 0.1 to the weighted sum. -/
lemma relevanceSum_ge_of_match (text : List Char) :
    ∀ kws : List (List Char), (∃ k ∈ kws, jsIncludes text k = true) →
      1/10 ≤ News.relevanceSum text kws := by
  intro kws
  induction kws with
  | nil => rintro ⟨k, hk, -⟩; exact absurd hk (List.not_mem_nil k)
  | cons k t ih =>
    rintro ⟨c, hc, hinc⟩
    rw [News.relevanceSum]
    rcases List.mem_cons.mp hc with h1 | h1
    · subst h1
      rw [if_pos hinc]
      have hrest := relevanceSum_nonneg text t
      split <;> linarith
    · have hsum := ih ⟨c, h1, hinc⟩
      have h0 : (0 : ℚ) ≤
          if jsIncludes text k then
            (if k = "avalanche".data ∨ k = "avax".data then 3/10 else 1/10)
          else 0 := by
        split
        · split <;> norm_num
        · norm_num
      linarith

/-- The capped relevance score stays within `[0, 1]`. -/
lemma calculateRelevance_mem_unit (title summary : List Char) :
    0 ≤ News.calculateRelevance title summary ∧
      News.calculateRelevance title summary ≤ 1 := by
  unfold News.calculateRelevance
  constructor
  · exact le_min (relevanceSum_nonneg _ _) (by norm_num)
  · exact min_le_right _ _

/-- An item whose scorer text (title, space, summary) matches the
keyword gate scores at least one keyword's weight. -/
lemma calculateRelevance_ge_of_related (title summary : List Char)
    (h : News.isAvalancheRelated (title ++ [' '] ++ summary) = true) :
    1/10 ≤ News.calculateRelevance title summary := by
  unfold News.isAvalancheRelated at h
  obtain ⟨k, hk, hinc⟩ := List.any_eq_true.mp h
  unfold News.calculateRelevance
  exact le_min (relevanceSum_ge_of_match _ _ ⟨k, hk, hinc⟩) (by norm_num)

/-- What `processItem` guarantees about any item it accepts: the stored
publish timestamp passed the freshness check and the stored score is
the keyword score of the untruncated title/summary. -/
lemma processItem_props (parseDate : List Char → Int) (now : Int)
    (nowIso : List Char) (sourceName : List Char) (it : News.RssItem)
    (x : News.NewsItem)
    (h : News.processItem parseDate now nowIso sourceName it = some x) :
    now - parseDate x.publishedAt ≤ News.MAX_NEWS_AGE_MS ∧
      0 ≤ x.relevanceScore ∧ x.relevanceScore ≤ 1 := by
  simp only [News.processItem] at h
  split at h
  · exact absurd h (by simp)
  · split at h
    · exact absurd h (by simp)
    · rename_i hfresh hgate
      rw [Option.some_inj] at h
      subst h
      refine ⟨?_, calculateRelevance_mem_unit _ _⟩
      have hf : News.isFresh parseDate now
          (News.jsOrStr it.pubDate nowIso) = true := not_not.mp hfresh
      simpa [News.isFresh, decide_eq_true_eq] using hf

/-- Membership in an append-accumulating fold comes from the seed or
from one of the folded elements. -/
lemma mem_foldl_append {α β : Type} (g : β → List α) :
    ∀ (l : List β) (acc : List α) (x : α),
      x ∈ l.foldl (fun a b => a ++ g b) acc → x ∈ acc ∨ ∃ b ∈ l, x ∈ g b := by
  intro l
  induction l with
  | nil => intro acc x h; exact Or.inl h
  | cons b t ih =>
    intro acc x h
    rcases ih (acc ++ g b) x h with h1 | ⟨c, hc, hx⟩
    · rcases List.mem_append.mp h1 with h2 | h2
      · exact Or.inl h2
      · exact Or.inr ⟨b, List.mem_cons_self b t, h2⟩
    · exact Or.inr ⟨c, List.mem_cons_of_mem b hc, hx⟩

/-- Every aggregated news item was accepted by `processItem`. -/
lemma mem_allNewsOf (parseDate : List Char → Int) (now : Int)
    (nowIso : List Char) (feeds : List News.FeedResult) (x : News.NewsItem)
    (h : x ∈ News.allNewsOf parseDate now nowIso feeds) :
    ∃ sourceName it, News.processItem parseDate now nowIso sourceName it = some x := by
  rcases mem_foldl_append (News.feedItems parseDate now nowIso) feeds [] x h with
    h1 | ⟨feed, -, hx⟩
  · exact absurd h1 (List.not_mem_nil x)
  · match feed with
    | none => exact absurd hx (by simp [News.feedItems])
    | some (sourceName, items) =>
      obtain ⟨it, -, hit⟩ := List.mem_filterMap.mp (by simpa [News.feedItems] using hx)
      exact ⟨sourceName, it, hit⟩

/-- Everything `scrapeNews` returns came out of the aggregate list. -/
lemma scrapeNews_mem_allNews (parseDate : List Char → Int) (now : Int)
    (nowIso : List Char) (feeds : List News.FeedResult)
    (l : List News.NewsItem) (x : News.NewsItem)
    (h : News.scrapeNews parseDate now nowIso feeds = Result.ok l) (hx : x ∈ l) :
    x ∈ News.allNewsOf parseDate now nowIso feeds := by
  simp only [News.scrapeNews] at h
  split at h
  · rw [Result.ok.injEq] at h
    subst h
    exact absurd hx (List.not_mem_nil x)
  · rw [Result.ok.injEq] at h
    subst h
    have h1 := List.take_subset 10 _ hx
    exact (List.perm_insertionSort _ _).mem_iff.mp h1

/-- C5 (as stated, refuted): the keyword gate checks the bare
concatenation `title + summary` while the scorer checks
`title ⧺ " " ⧺ summary`, so a match spanning the boundary (title
"ava", summary "x") passes the gate yet scores 0 — strictly below any
keyword's weight. The freshness and `[0,1]` parts of the claim do
hold. -/
theorem scrapeNews_gate_without_weight :
    News.isAvalancheRelated ("ava".data ++ "x".data) = true ∧
    News.scrapeNews (fun _ => 0) 0 "T".data
        [some ("CoinDesk".data,
          [{ title := some "ava".data, contentSnippet := some "x".data,
             content := none, pubDate := some "d".data, link := none }])] =
      Result.ok [{ title := "ava".data, summary := "x".data, url := [],
                   source := "CoinDesk".data, publishedAt := "d".data,
                   relevanceScore := 0 }] ∧
    (0 : ℚ) < 1/10 := by
  refine ⟨rfl, ?_, by norm_num⟩
  have hsum : News.relevanceSum (jsToLower ("ava".data ++ [' '] ++ "x".data))
      News.AVALANCHE_KEYWORDS = 0 := by
    simp +decide [News.relevanceSum, News.AVALANCHE_KEYWORDS]
  have hrel : News.calculateRelevance ['a', 'v', 'a'] ['x'] = 0 := by
    rw [News.calculateRelevance]
    rw [show (jsToLower (['a', 'v', 'a'] ++ [' '] ++ ['x'])) =
      jsToLower ("ava".data ++ [' '] ++ "x".data) from rfl]
    rw [hsum]
    norm_num
  have hproc : News.processItem (fun _ => 0) 0 "T".data "CoinDesk".data
      { title := some "ava".data, contentSnippet := some "x".data,
        content := none, pubDate := some "d".data, link := none } =
      some { title := "ava".data, summary := "x".data, url := [],
             source := "CoinDesk".data, publishedAt := "d".data,
             relevanceScore := 0 } := by
    simp +decide [News.processItem, News.jsOrStr, News.isFresh, hrel]
  have hall : News.allNewsOf (fun _ => 0) 0 "T".data
      [some ("CoinDesk".data,
        [{ title := some "ava".data, contentSnippet := some "x".data,
           content := none, pubDate := some "d".data, link := none }])] =
      [{ title := "ava".data, summary := "x".data, url := [],
         source := "CoinDesk".data, publishedAt := "d".data,
         relevanceScore := 0 }] := by
    simp [News.allNewsOf, News.feedItems, hproc]
  simp [News.scrapeNews, hall, List.insertionSort, List.orderedInsert]
  simp +decide [News.jsOrStr, hrel]

/-- C5 (amended): every news item the connector returns has a publish
timestamp inside the seven-day freshness window and a relevance score
in `[0, 1]` (the weighted keyword score is capped at 1); and an item
whose space-joined title/summary — the text the scorer actually
examines — matches the keyword gate scores at least one keyword's
weight (0.1). -/
theorem scrapeNews_fresh_and_scored (parseDate : List Char → Int) (now : Int)
    (nowIso : List Char) (feeds : List News.FeedResult)
    (l : List News.NewsItem) (x : News.NewsItem) (title summary : List Char) :
    (News.scrapeNews parseDate now nowIso feeds = Result.ok l → x ∈ l →
      now - parseDate x.publishedAt ≤ News.MAX_NEWS_AGE_MS ∧
      0 ≤ x.relevanceScore ∧ x.relevanceScore ≤ 1) ∧
    (News.isAvalancheRelated (title ++ [' '] ++ summary) = true →
      1/10 ≤ News.calculateRelevance title summary) := by
  constructor
  · intro h hx
    obtain ⟨s, it, hit⟩ := mem_allNewsOf parseDate now nowIso feeds x
      (scrapeNews_mem_allNews parseDate now nowIso feeds l x h hx)
    exact processItem_props parseDate now nowIso s it x hit
  · exact calculateRelevance_ge_of_related title summary

/-- Witness for the amended C5: a run over one feed with one fresh
`avax` item returns it with score 0.3 ∈ [0,1], and the gate-to-weight
bound holds for its texts. -/
theorem scrapeNews_fresh_and_scored_witness :
    ((0 : Int) - 0 ≤ News.MAX_NEWS_AGE_MS ∧
      (0 : ℚ) ≤ 3/10 ∧ (3/10 : ℚ) ≤ 1) ∧
    (1/10 : ℚ) ≤ News.calculateRelevance "avax news".data "s".data := by
  have hsum : News.relevanceSum (jsToLower ("avax news".data ++ [' '] ++ "s".data))
      News.AVALANCHE_KEYWORDS = 3/10 := by
    simp +decide [News.relevanceSum, News.AVALANCHE_KEYWORDS]
  have hrel : News.calculateRelevance
      ['a', 'v', 'a', 'x', ' ', 'n', 'e', 'w', 's'] ['s'] = 3/10 := by
    rw [News.calculateRelevance]
    rw [show (jsToLower (['a', 'v', 'a', 'x', ' ', 'n', 'e', 'w', 's'] ++
      [' '] ++ ['s'])) = jsToLower ("avax news".data ++ [' '] ++ "s".data) from rfl]
    rw [hsum]
    rw [min_eq_left (by norm_num)]
  have hproc : News.processItem (fun _ => 0) 0 "T".data "CoinDesk".data
      { title := some "avax news".data, contentSnippet := some "s".data,
        content := none, pubDate := some "d".data, link := some "u".data } =
      some { title := "avax news".data, summary := "s".data, url := "u".data,
             source := "CoinDesk".data, publishedAt := "d".data,
             relevanceScore := 3/10 } := by
    simp +decide [News.processItem, News.jsOrStr, News.isFresh, hrel]
  have hall : News.allNewsOf (fun _ => 0) 0 "T".data
      [some ("CoinDesk".data,
        [{ title := some "avax news".data, contentSnippet := some "s".data,
           content := none, pubDate := some "d".data, link := some "u".data }])] =
      [{ title := "avax news".data, summary := "s".data, url := "u".data,
         source := "CoinDesk".data, publishedAt := "d".data,
         relevanceScore := 3/10 }] := by
    simp [News.allNewsOf, News.feedItems, hproc]
  have h : News.scrapeNews (fun _ => 0) 0 "T".data
      [some ("CoinDesk".data,
        [{ title := some "avax news".data, contentSnippet := some "s".data,
           content := none, pubDate := some "d".data, link := some "u".data }])] =
      Result.ok [{ title := "avax news".data, summary := "s".data, url := "u".data,
                   source := "CoinDesk".data, publishedAt := "d".data,
                   relevanceScore := 3/10 }] := by
    simp [News.scrapeNews, hall, List.insertionSort, List.orderedInsert]
    simp +decide [News.jsOrStr, hrel]
  exact ⟨(scrapeNews_fresh_and_scored (fun _ => 0) 0 "T".data
      [some ("CoinDesk".data,
        [{ title := some "avax news".data, contentSnippet := some "s".data,
           content := none, pubDate := some "d".data, link := some "u".data }])]
      [{ title := "avax news".data, summary := "s".data, url := "u".data,
         source := "CoinDesk".data, publishedAt := "d".data,
         relevanceScore := 3/10 }]
      { title := "avax news".data, summary := "s".data, url := "u".data,
        source := "CoinDesk".data, publishedAt := "d".data,
        relevanceScore := 3/10 }
      "avax news".data "s".data).1 h (by simp),
   (scrapeNews_fresh_and_scored (fun _ => 0) 0 "T".data [] []
      { title := [], summary := [], url := [], source := [],
        publishedAt := [], relevanceScore := 0 }
      "avax news".data "s".data).2 rfl⟩

/-- A nonzero current TVL keeps every `||`-guarded reference divisor
nonzero. -/
lemma tvlRef_ne_zero (hist : List Onchain.TvlPoint) (b : Nat) (cur : ℚ)
    (h : cur ≠ 0) : Onchain.tvlRef hist b cur ≠ 0 := by
  unfold Onchain.tvlRef
  cases hj : Onchain.jsIndex hist ((hist.length : Int) - (b : Int)) with
  | none => exact h
  | some p =>
    by_cases hz : p.tvl = 0
    · simp [hz, h]
    · simp [hz]

/-- C7 (as stated, refuted): the metrics connector can divide by zero —
with a two-point history whose TVL values are both 0, the change
computation runs (length > 1) and its 24h divisor
`history[length-2]?.tvl || currentTvl` is 0, so the code computes
`0/0` (`NaN`, not a finite number). -/
theorem tvlChanges_divides_by_zero_on_zero_tvl :
    ¬ Onchain.divisionSafe true
      [{ date := 0, tvl := 0 }, { date := 86400000, tvl := 0 }] := by
  unfold Onchain.divisionSafe
  decide

/-- C7 (amended): the 24h/7d change computation is skipped entirely on
a history of at most one point; the 7d (resp. 24h) divisor falls back
to the current value when the eighth-most-recent (resp.
second-most-recent) point is absent, and equals that point's TVL when
it is present and nonzero; and provided the current TVL is nonzero,
neither divisor is zero, so both changes are finite. -/
theorem tvlChanges_reference_points_and_fallback
    (hist : List Onchain.TvlPoint) (ok : Bool) :
    (hist.length ≤ 1 → Onchain.tvlChanges ok hist = (0, 0)) ∧
    (hist.length < 8 → Onchain.tvl7dAgoOf hist = Onchain.currentTvlOf hist) ∧
    (hist.length < 2 → Onchain.tvl24hAgoOf hist = Onchain.currentTvlOf hist) ∧
    (∀ p, Onchain.jsIndex hist ((hist.length : Int) - 2) = some p → p.tvl ≠ 0 →
      Onchain.tvl24hAgoOf hist = p.tvl) ∧
    (∀ p, Onchain.jsIndex hist ((hist.length : Int) - 8) = some p → p.tvl ≠ 0 →
      Onchain.tvl7dAgoOf hist = p.tvl) ∧
    (Onchain.currentTvlOf hist ≠ 0 → Onchain.divisionSafe ok hist) := by
  refine ⟨fun h => ?_, fun h => ?_, fun h => ?_, fun p hp hz => ?_,
    fun p hp hz => ?_, fun h => ?_⟩
  · rw [Onchain.tvlChanges, if_neg]
    rintro ⟨-, h2⟩
    omega
  · have hnone : Onchain.jsIndex hist ((hist.length : Int) - (8 : Nat)) = none := by
      rw [Onchain.jsIndex, if_neg]
      rintro ⟨h0, -⟩
      omega
    rw [Onchain.tvl7dAgoOf, Onchain.tvlRef, hnone]
  · have hnone : Onchain.jsIndex hist ((hist.length : Int) - (2 : Nat)) = none := by
      rw [Onchain.jsIndex, if_neg]
      rintro ⟨h0, -⟩
      omega
    rw [Onchain.tvl24hAgoOf, Onchain.tvlRef, hnone]
  · rw [Onchain.tvl24hAgoOf, Onchain.tvlRef]
    have h2 : ((2 : Nat) : Int) = (2 : Int) := rfl
    rw [h2, hp]
    simp [hz]
  · rw [Onchain.tvl7dAgoOf, Onchain.tvlRef]
    have h8 : ((8 : Nat) : Int) = (8 : Int) := rfl
    rw [h8, hp]
    simp [hz]
  · exact Or.inr ⟨tvlRef_ne_zero hist 2 _ h, tvlRef_ne_zero hist 8 _ h⟩

/-- Witness for the amended C7: on the two-point history `[5, 10]` the
7d change falls back to the current value, the 24h divisor is the
second-most-recent TVL 5, and both divisors are nonzero. -/
theorem tvlChanges_reference_points_and_fallback_witness :
    (Onchain.tvl7dAgoOf [{ date := 0, tvl := 5 }, { date := 1, tvl := 10 }] =
      Onchain.currentTvlOf [{ date := 0, tvl := 5 }, { date := 1, tvl := 10 }]) ∧
    (Onchain.tvl24hAgoOf [{ date := 0, tvl := 5 }, { date := 1, tvl := 10 }] =
      (5 : ℚ)) ∧
    Onchain.divisionSafe true [{ date := 0, tvl := 5 }, { date := 1, tvl := 10 }] :=
  ⟨(tvlChanges_reference_points_and_fallback
      [{ date := 0, tvl := 5 }, { date := 1, tvl := 10 }] true).2.1 (by decide),
   (tvlChanges_reference_points_and_fallback
      [{ date := 0, tvl := 5 }, { date := 1, tvl := 10 }] true).2.2.2.1
     { date := 0, tvl := 5 } (by decide) (by norm_num),
   (tvlChanges_reference_points_and_fallback
      [{ date := 0, tvl := 5 }, { date := 1, tvl := 10 }] true).2.2.2.2.2
     (by decide)⟩

/-- The repair of one entry never throws except on `null`: property
access on any other JSON value is either a field lookup or
`undefined`. -/
lemma repairEntry_ok_of_ne_null (nowMs : Nat) (nowIso : String) (index : Nat)
    (e : Json) (h : e ≠ Json.null) :
    ∃ d, TweetGen.repairEntry nowMs nowIso index e = Except.ok d := by
  cases e with
  | null => exact absurd rfl h
  | bool b => exact ⟨_, rfl⟩
  | num q => exact ⟨_, rfl⟩
  | str s => exact ⟨_, rfl⟩
  | arr es => exact ⟨_, rfl⟩
  | obj kvs => exact ⟨_, rfl⟩

/-- A `null` entry anywhere in the parsed array makes the whole
`parsed.map` throw. -/
lemma repairAll_error_of_null_mem (nowMs : Nat) (nowIso : String) :
    ∀ (es : List Json) (index : Nat), Json.null ∈ es →
      TweetGen.repairAll nowMs nowIso index es = Except.error () := by
  intro es
  induction es with
  | nil => intro index h; exact absurd h (List.not_mem_nil _)
  | cons e t ih =>
    intro index h
    by_cases he : e = Json.null
    · subst he; rfl
    · obtain ⟨d, hd⟩ := repairEntry_ok_of_ne_null nowMs nowIso index e he
      have ht : Json.null ∈ t := by
        rcases List.mem_cons.mp h with h1 | h1
        · exact absurd h1.symm he
        · exact h1
      simp [TweetGen.repairAll, hd, ih (index + 1) ht]

/-- C1 (as stated, refuted): the repair step does not leave every
present field untouched — a draft object that carries
`"confidence": 0` (a perfectly formed, present field) comes out with
confidence 0.5, because the defaulting uses JavaScript `||`, which
also replaces present-but-falsy values. -/
theorem repairEntry_overwrites_present_zero_confidence :
    TweetGen.repairEntry 1706572800000 "2024-01-30T00:00:00.000Z" 0
        (Json.obj [("confidence", Json.num 0)]) =
      Except.ok
        { id := Json.str "draft-1706572800000-0", content := Json.str "",
          source := Json.str "mixed", context := Json.str "",
          confidence := Json.num (1/2),
          createdAt := Json.str "2024-01-30T00:00:00.000Z", metadata := none } ∧
    Json.num (1/2) ≠ Json.num 0 := by
  constructor
  · rfl
  · intro h
    simp only [Json.num.injEq] at h
    norm_num at h

/-- C1 (amended): the repair step fills the documented defaults for
fields that are missing — or present but falsy (`0`, `""`, `false`,
`null`) — and leaves every field whose present value is truthy
untouched: a missing id is synthesized from the timestamp and index,
missing confidence becomes 0.5, missing createdAt the current time,
missing source "mixed" (and missing content/context the empty string,
missing metadata stays absent). -/
theorem repairEntry_defaults_missing_keeps_truthy (nowMs : Nat) (nowIso : String)
    (index : Nat) (kvs : List (String × Json)) :
    ∃ d, TweetGen.repairEntry nowMs nowIso index (Json.obj kvs) = Except.ok d ∧
      (lookupField kvs "id" = none →
        d.id = Json.str (TweetGen.synthId nowMs index)) ∧
      (∀ v, lookupField kvs "id" = some v → jsTruthy v = true → d.id = v) ∧
      (∀ v, lookupField kvs "id" = some v → jsTruthy v = false →
        d.id = Json.str (TweetGen.synthId nowMs index)) ∧
      (lookupField kvs "confidence" = none → d.confidence = Json.num (1/2)) ∧
      (∀ v, lookupField kvs "confidence" = some v → jsTruthy v = true →
        d.confidence = v) ∧
      (∀ v, lookupField kvs "confidence" = some v → jsTruthy v = false →
        d.confidence = Json.num (1/2)) ∧
      (lookupField kvs "createdAt" = none → d.createdAt = Json.str nowIso) ∧
      (∀ v, lookupField kvs "createdAt" = some v → jsTruthy v = true →
        d.createdAt = v) ∧
      (∀ v, lookupField kvs "createdAt" = some v → jsTruthy v = false →
        d.createdAt = Json.str nowIso) ∧
      (lookupField kvs "source" = none → d.source = Json.str "mixed") ∧
      (∀ v, lookupField kvs "source" = some v → jsTruthy v = true →
        d.source = v) ∧
      (∀ v, lookupField kvs "source" = some v → jsTruthy v = false →
        d.source = Json.str "mixed") ∧
      (lookupField kvs "content" = none → d.content = Json.str "") ∧
      (∀ v, lookupField kvs "content" = some v → jsTruthy v = true →
        d.content = v) ∧
      (∀ v, lookupField kvs "content" = some v → jsTruthy v = false →
        d.content = Json.str "") ∧
      (lookupField kvs "context" = none → d.context = Json.str "") ∧
      (∀ v, lookupField kvs "context" = some v → jsTruthy v = true →
        d.context = v) ∧
      (∀ v, lookupField kvs "context" = some v → jsTruthy v = false →
        d.context = Json.str "") ∧
      (lookupField kvs "metadata" = none → d.metadata = none) ∧
      (∀ v, lookupField kvs "metadata" = some v → jsTruthy v = true →
        d.metadata = some v) ∧
      (∀ v, lookupField kvs "metadata" = some v → jsTruthy v = false →
        d.metadata = none) := by
  refine ⟨_, rfl, ?_, ?_, ?_, ?_, ?_, ?_, ?_, ?_, ?_, ?_, ?_, ?_, ?_, ?_, ?_,
    ?_, ?_, ?_, ?_, ?_, ?_⟩
  all_goals first
  | (intro h; simp [jsOr, jsOrUndef, h])
  | (intro v hv htr; simp [jsOr, jsOrUndef, hv, htr])

/-- Witness for the amended C1: an object carrying a truthy id "keep"
and a falsy confidence 0 keeps the id, gets the 0.5 confidence default
despite the field being present, and gets every other default. -/
theorem repairEntry_defaults_missing_keeps_truthy_witness :
    ∃ d, TweetGen.repairEntry 5 "T" 2
        (Json.obj [("id", Json.str "keep"), ("confidence", Json.num 0)]) =
          Except.ok d ∧
      d.id = Json.str "keep" ∧
      d.confidence = Json.num (1/2) ∧
      d.source = Json.str "mixed" ∧
      d.createdAt = Json.str "T" := by
  obtain ⟨d, hd, hid0, hid1, hid2, hc0, hc1, hc2, hca0, hca1, hca2, hs0, hs1,
    hs2, hco0, hco1, hco2, hcx0, hcx1, hcx2, hm0, hm1, hm2⟩ :=
    repairEntry_defaults_missing_keeps_truthy 5 "T" 2
      [("id", Json.str "keep"), ("confidence", Json.num 0)]
  refine ⟨d, hd, hid1 (Json.str "keep") (by rfl) (by simp [jsTruthy]),
    hc2 (Json.num 0) (by rfl) (by simp [jsTruthy]),
    hs0 (by rfl), hca0 (by rfl)⟩

/-- C2 (as stated, refuted): a parsed-array entry that is not an object
is not always rejected — a bare number entry sails through the repair
and becomes an all-defaults draft (only `null` entries abort the
parse). -/
theorem repairParsed_repairs_nonobject_entry :
    TweetGen.repairParsed 7 "T" (some (Json.arr [Json.num 5])) =
      some [{ id := Json.str "draft-7-0", content := Json.str "",
              source := Json.str "mixed", context := Json.str "",
              confidence := Json.num (1/2), createdAt := Json.str "T",
              metadata := none }] ∧
    TweetGen.repairParsed 7 "T" (some (Json.arr [Json.num 5])) ≠ none := by
  have h : TweetGen.repairParsed 7 "T" (some (Json.arr [Json.num 5])) =
      some [{ id := Json.str "draft-7-0", content := Json.str "",
              source := Json.str "mixed", context := Json.str "",
              confidence := Json.num (1/2), createdAt := Json.str "T",
              metadata := none }] := rfl
  exact ⟨h, by rw [h]; exact Option.some_ne_none _⟩

/-- C2 (amended): given any response text, a `JSON.parse` failure or a
parsed value that is not an array yields the `AI_INVALID_RESPONSE`
error kind (never an uncaught exception — the model is total); for a
parsed array, a `null` entry also yields `AI_INVALID_RESPONSE` (its
thrown `TypeError` is caught), but a primitive entry such as a bare
number is repaired into an all-defaults draft instead of being
rejected. -/
theorem generateTweets_invalid_response_handling (modelName : String)
    (parse : List Char → Option Json) (nowMs : Nat) (nowIso : String)
    (resp : TweetGen.ApiResponse) (t : List Char)
    (htext : TweetGen.firstTextBlock resp.content = some t) :
    (parse (TweetGen.cleanResponseText t) = none →
      TweetGen.generateTweets modelName parse nowMs nowIso (Except.ok resp) =
        Result.err ErrorCode.AI_INVALID_RESPONSE "Failed to parse AI response as JSON") ∧
    (∀ j, parse (TweetGen.cleanResponseText t) = some j → (∀ es, j ≠ Json.arr es) →
      TweetGen.generateTweets modelName parse nowMs nowIso (Except.ok resp) =
        Result.err ErrorCode.AI_INVALID_RESPONSE "Failed to parse AI response as JSON") ∧
    (∀ es, parse (TweetGen.cleanResponseText t) = some (Json.arr es) →
      Json.null ∈ es →
      TweetGen.generateTweets modelName parse nowMs nowIso (Except.ok resp) =
        Result.err ErrorCode.AI_INVALID_RESPONSE "Failed to parse AI response as JSON") ∧
    (∀ q, parse (TweetGen.cleanResponseText t) = some (Json.arr [Json.num q]) →
      TweetGen.generateTweets modelName parse nowMs nowIso (Except.ok resp) =
        Result.ok
          { drafts := [{ id := Json.str (TweetGen.synthId nowMs 0),
                         content := Json.str "", source := Json.str "mixed",
                         context := Json.str "", confidence := Json.num (1/2),
                         createdAt := Json.str nowIso, metadata := none }],
            tokensUsed := resp.inputTokens + resp.outputTokens,
            modelUsed := modelName, generatedAt := nowIso }) := by
  refine ⟨fun hp => ?_, fun j hp hne => ?_, fun es hp hnull => ?_, fun q hp => ?_⟩
  · simp [TweetGen.generateTweets, TweetGen.parseResponse, TweetGen.repairParsed,
      htext, hp]
  · cases j with
    | arr es => exact absurd rfl (hne es)
    | null =>
      simp [TweetGen.generateTweets, TweetGen.parseResponse, TweetGen.repairParsed,
        htext, hp]
    | bool b =>
      simp [TweetGen.generateTweets, TweetGen.parseResponse, TweetGen.repairParsed,
        htext, hp]
    | num q =>
      simp [TweetGen.generateTweets, TweetGen.parseResponse, TweetGen.repairParsed,
        htext, hp]
    | str s =>
      simp [TweetGen.generateTweets, TweetGen.parseResponse, TweetGen.repairParsed,
        htext, hp]
    | obj kvs =>
      simp [TweetGen.generateTweets, TweetGen.parseResponse, TweetGen.repairParsed,
        htext, hp]
  · simp [TweetGen.generateTweets, TweetGen.parseResponse, TweetGen.repairParsed,
      htext, hp, repairAll_error_of_null_mem nowMs nowIso es 0 hnull]
  · have hall : TweetGen.repairAll nowMs nowIso 0 [Json.num q] =
        Except.ok [{ id := Json.str (TweetGen.synthId nowMs 0),
                     content := Json.str "", source := Json.str "mixed",
                     context := Json.str "", confidence := Json.num (1/2),
                     createdAt := Json.str nowIso, metadata := none }] := rfl
    simp [TweetGen.generateTweets, TweetGen.parseResponse, TweetGen.repairParsed,
      htext, hp, hall]

/-- Witness for the amended C2: a response whose cleaned text fails to
parse yields the invalid-response error. -/
theorem generateTweets_invalid_response_handling_witness :
    TweetGen.generateTweets "m" (fun _ => none) 0 "T"
        (Except.ok { content := [TweetGen.ContentBlock.text "not json".data],
                     inputTokens := 1, outputTokens := 2 }) =
      Result.err ErrorCode.AI_INVALID_RESPONSE "Failed to parse AI response as JSON" :=
  (generateTweets_invalid_response_handling "m" (fun _ => none) 0 "T"
    { content := [TweetGen.ContentBlock.text "not json".data],
      inputTokens := 1, outputTokens := 2 } "not json".data rfl).1 rfl

/-- When no draft in a list carries the id, `findIndex` misses and the
list is untouched. -/
lemma setFirstContent_none (id c : String) :
    ∀ drafts : List Store.StoredDraft, (∀ d ∈ drafts, d.id ≠ id) →
      DraftsRoute.setFirstContent drafts id c = none := by
  intro drafts
  induction drafts with
  | nil => intro _; rfl
  | cons d rest ih =>
    intro h
    have hd : ¬ d.id = id := h d (List.mem_cons_self d rest)
    simp only [DraftsRoute.setFirstContent, if_neg hd,
      ih (fun e he => h e (List.mem_cons_of_mem d he))]

/-- The first matching draft — and only it — gets its content
replaced. -/
lemma setFirstContent_split (id c : String) :
    ∀ (pre : List Store.StoredDraft) (d : Store.StoredDraft)
      (post : List Store.StoredDraft), (∀ e ∈ pre, e.id ≠ id) → d.id = id →
      DraftsRoute.setFirstContent (pre ++ d :: post) id c =
        some (pre ++ { d with content := c } :: post, { d with content := c }) := by
  intro pre
  induction pre with
  | nil =>
    intro d post _ hd
    simp [DraftsRoute.setFirstContent, hd]
  | cons e t ih =>
    intro d post hpre hd
    have he : ¬ e.id = id := hpre e (List.mem_cons_self e t)
    simp only [List.cons_append, DraftsRoute.setFirstContent, if_neg he,
      List.append_eq, ih d post (fun x hx => hpre x (List.mem_cons_of_mem e hx)) hd]

/-- With no match in any file, the file loop returns every file
unchanged. -/
lemma patchFiles_none {ι : Type} (id c : String) :
    ∀ files : List (List Char × Store.TweetDraftsOutput ι),
      (∀ f ∈ files, ∀ d ∈ (f.2).drafts, d.id ≠ id) →
      DraftsRoute.patchFiles files id c = (files, none) := by
  intro files
  induction files with
  | nil => intro _; rfl
  | cons f rest ih =>
    intro h
    obtain ⟨name, data⟩ := f
    have hnone := setFirstContent_none id c data.drafts
      (fun d hd => h (name, data) (List.mem_cons_self _ _) d hd)
    simp only [DraftsRoute.patchFiles, hnone,
      ih (fun g hg d hd => h g (List.mem_cons_of_mem _ hg) d hd)]

/-- The file loop rewrites exactly the first file containing a match
and passes the earlier and later files through unchanged. -/
lemma patchFiles_split {ι : Type} (id c : String) :
    ∀ (fpre : List (List Char × Store.TweetDraftsOutput ι)) (name : List Char)
      (data : Store.TweetDraftsOutput ι)
      (fpost : List (List Char × Store.TweetDraftsOutput ι))
      (ds : List Store.StoredDraft) (hit : Store.StoredDraft),
      (∀ f ∈ fpre, ∀ d ∈ (f.2).drafts, d.id ≠ id) →
      DraftsRoute.setFirstContent data.drafts id c = some (ds, hit) →
      DraftsRoute.patchFiles (fpre ++ (name, data) :: fpost) id c =
        (fpre ++ (name, { data with drafts := ds }) :: fpost, some hit) := by
  intro fpre
  induction fpre with
  | nil =>
    intro name data fpost ds hit _ hset
    simp [DraftsRoute.patchFiles, hset]
  | cons f t ih =>
    intro name data fpost ds hit hpre hset
    obtain ⟨fn, fd⟩ := f
    have hnone := setFirstContent_none id c fd.drafts
      (fun d hd => hpre (fn, fd) (List.mem_cons_self _ _) d hd)
    simp only [List.cons_append, DraftsRoute.patchFiles, hnone, List.append_eq,
      ih name data fpost ds hit
        (fun g hg d hd => hpre g (List.mem_cons_of_mem _ hg) d hd) hset]

/-- C10: editing a stored draft by id replaces only the content field
of the single matching draft; every other field of that draft, every
other draft in the batch, the batch's date, generatedAt and input, and
every other batch file are unchanged; and when no draft matches, no
stored batch is modified (404). -/
theorem patchHandler_updates_only_matching_content {ι : Type}
    (files : List (List Char × Store.TweetDraftsOutput ι)) (id c : String)
    (hc : c ≠ "") :
    ((∀ f ∈ files, ∀ d ∈ (f.2).drafts, d.id ≠ id) →
      DraftsRoute.patchHandler files id c =
        (files, DraftsRoute.PatchResponse.notFound)) ∧
    (∀ (fpre : List (List Char × Store.TweetDraftsOutput ι)) (name : List Char)
       (data : Store.TweetDraftsOutput ι)
       (fpost : List (List Char × Store.TweetDraftsOutput ι))
       (pre post : List Store.StoredDraft) (d : Store.StoredDraft),
      files = fpre ++ (name, data) :: fpost →
      data.drafts = pre ++ d :: post →
      (∀ f ∈ fpre, ∀ e ∈ (f.2).drafts, e.id ≠ id) →
      (∀ e ∈ pre, e.id ≠ id) →
      d.id = id →
      DraftsRoute.patchHandler files id c =
        (fpre ++
          (name,
            { date := data.date, generatedAt := data.generatedAt,
              drafts := pre ++
                { id := d.id, content := c, source := d.source,
                  context := d.context, confidence := d.confidence,
                  createdAt := d.createdAt, metadata := d.metadata } :: post,
              input := data.input }) :: fpost,
         DraftsRoute.PatchResponse.ok
           { id := d.id, content := c, source := d.source, context := d.context,
             confidence := d.confidence, createdAt := d.createdAt,
             metadata := d.metadata })) := by
  constructor
  · intro h
    unfold DraftsRoute.patchHandler
    rw [if_neg hc, patchFiles_none id c files h]
  · intro fpre name data fpost pre post d hfiles hdrafts hfpre hpre hd
    subst hfiles
    have hset : DraftsRoute.setFirstContent data.drafts id c =
        some (pre ++ { d with content := c } :: post, { d with content := c }) := by
      rw [hdrafts]
      exact setFirstContent_split id c pre d post hpre hd
    unfold DraftsRoute.patchHandler
    rw [if_neg hc, patchFiles_split id c fpre name data fpost _ _ hfpre hset]

/-- Witness for C10: in a two-file store, patching the middle draft of
the second file replaces just its content and answers 200 with the
updated draft. -/
theorem patchHandler_updates_only_matching_content_witness :
    DraftsRoute.patchHandler (ι := Unit)
        [("a.json".data,
          { date := "a".data, generatedAt := "ga".data,
            drafts := [{ id := "g", content := "old-g", source := "news",
                         context := "kg", confidence := 0, createdAt := "t1",
                         metadata := none }],
            input := none }),
         ("b.json".data,
          { date := "b".data, generatedAt := "gb".data,
            drafts := [{ id := "e", content := "old-e", source := "mixed",
                         context := "ke", confidence := 0, createdAt := "t2",
                         metadata := none },
                       { id := "x", content := "old-x", source := "onchain",
                         context := "kx", confidence := 0, createdAt := "t3",
                         metadata := none },
                       { id := "f", content := "old-f", source := "twitter",
                         context := "kf", confidence := 0, createdAt := "t4",
                         metadata := none }],
            input := none })]
        "x" "new content" =
      ([("a.json".data,
          { date := "a".data, generatedAt := "ga".data,
            drafts := [{ id := "g", content := "old-g", source := "news",
                         context := "kg", confidence := 0, createdAt := "t1",
                         metadata := none }],
            input := none }),
        ("b.json".data,
          { date := "b".data, generatedAt := "gb".data,
            drafts := [{ id := "e", content := "old-e", source := "mixed",
                         context := "ke", confidence := 0, createdAt := "t2",
                         metadata := none },
                       { id := "x", content := "new content", source := "onchain",
                         context := "kx", confidence := 0, createdAt := "t3",
                         metadata := none },
                       { id := "f", content := "old-f", source := "twitter",
                         context := "kf", confidence := 0, createdAt := "t4",
                         metadata := none }],
            input := none })],
       DraftsRoute.PatchResponse.ok
         { id := "x", content := "new content", source := "onchain",
           context := "kx", confidence := 0, createdAt := "t3",
           metadata := none }) :=
  (patchHandler_updates_only_matching_content (ι := Unit) _ "x" "new content"
      (by decide)).2
    [("a.json".data,
      { date := "a".data, generatedAt := "ga".data,
        drafts := [{ id := "g", content := "old-g", source := "news",
                     context := "kg", confidence := 0, createdAt := "t1",
                     metadata := none }],
        input := none })]
    "b.json".data
    { date := "b".data, generatedAt := "gb".data,
      drafts := [{ id := "e", content := "old-e", source := "mixed",
                   context := "ke", confidence := 0, createdAt := "t2",
                   metadata := none },
                 { id := "x", content := "old-x", source := "onchain",
                   context := "kx", confidence := 0, createdAt := "t3",
                   metadata := none },
                 { id := "f", content := "old-f", source := "twitter",
                   context := "kf", confidence := 0, createdAt := "t4",
                   metadata := none }],
      input := none }
    []
    [{ id := "e", content := "old-e", source := "mixed", context := "ke",
       confidence := 0, createdAt := "t2", metadata := none }]
    [{ id := "f", content := "old-f", source := "twitter", context := "kf",
       confidence := 0, createdAt := "t4", metadata := none }]
    { id := "x", content := "old-x", source := "onchain", context := "kx",
      confidence := 0, createdAt := "t3", metadata := none }
    rfl rfl (by simp) (by simp) rfl

/-- C4: for every backend call failure carrying an HTTP status, the
Generation Client classifies 401/403 as the credential-problem kind
(`AI_UNAVAILABLE`), 429 as `AI_RATE_LIMITED`, 404 as
`AI_MODEL_NOT_FOUND`, and any other failure as `UNKNOWN_ERROR`; the
client's behaviour is a function of the single backend call outcome, so
it performs no retry of its own. -/
theorem generateTweets_classifies_api_failures (modelName : String)
    (parse : List Char → Option Json) (nowMs : Nat) (nowIso : String)
    (e : TweetGen.ApiError) :
    ((e.status = some 401 ∨ e.status = some 403) →
      TweetGen.generateTweets modelName parse nowMs nowIso (Except.error e) =
        Result.err ErrorCode.AI_UNAVAILABLE "Invalid or missing API key") ∧
    (e.status = some 429 →
      TweetGen.generateTweets modelName parse nowMs nowIso (Except.error e) =
        Result.err ErrorCode.AI_RATE_LIMITED "Rate limited by AI provider") ∧
    (e.status = some 404 →
      TweetGen.generateTweets modelName parse nowMs nowIso (Except.error e) =
        Result.err ErrorCode.AI_MODEL_NOT_FOUND ("Model not found: " ++ modelName)) ∧
    (e.status ≠ some 401 → e.status ≠ some 403 → e.status ≠ some 429 →
      e.status ≠ some 404 →
      TweetGen.generateTweets modelName parse nowMs nowIso (Except.error e) =
        Result.err ErrorCode.UNKNOWN_ERROR (TweetGen.jsOrMessage e.message)) := by
  refine ⟨fun h => ?_, fun h => ?_, fun h => ?_, fun h1 h2 h3 h4 => ?_⟩
  · rcases h with h | h <;>
      simp [TweetGen.generateTweets, TweetGen.classifyApiError, h]
  · simp [TweetGen.generateTweets, TweetGen.classifyApiError, h]
  · simp [TweetGen.generateTweets, TweetGen.classifyApiError, h]
  · simp [TweetGen.generateTweets, TweetGen.classifyApiError, h1, h2, h3, h4]

/-- Witness for C4: a 401 failure is classified as `AI_UNAVAILABLE`. -/
theorem generateTweets_classifies_api_failures_witness :
    TweetGen.generateTweets "claude-3-haiku-20240307" (fun _ => none) 0 "t"
        (Except.error { status := some 401, message := none }) =
      Result.err ErrorCode.AI_UNAVAILABLE "Invalid or missing API key" :=
  (generateTweets_classifies_api_failures "claude-3-haiku-20240307"
    (fun _ => none) 0 "t" { status := some 401, message := none }).1 (Or.inl rfl)

/-- C9: whenever the bearer credential is not configured — unset, empty
(falsy), or left at the placeholder — the social connector returns the
`MISSING_ENV_VAR` failure kind having made zero network requests. -/
theorem scrapeTwitter_missing_token_no_request
    (parseDate : String → Int) (bearerToken : Option String)
    (accounts : List Twitter.AccountFetch)
    (h : bearerToken = none ∨ bearerToken = some "" ∨
      bearerToken = some Twitter.placeholderToken) :
    Twitter.scrapeTwitter parseDate bearerToken accounts =
      (Result.err ErrorCode.MISSING_ENV_VAR "Twitter bearer token not configured", 0) := by
  have hm : Twitter.tokenMissing bearerToken = true := by
    rcases h with h | h | h <;> simp [Twitter.tokenMissing, h]
  simp [Twitter.scrapeTwitter, hm]

/-- Witness for C9: an unset token yields `MISSING_ENV_VAR` with zero
requests even with accounts configured. -/
theorem scrapeTwitter_missing_token_no_request_witness :
    Twitter.scrapeTwitter (fun _ => 0) none
        [{ username := "avax", userFetchOk := true, userName := some "Avalanche",
           tweetsFetchOk := true, tweetsData := some [] }] =
      (Result.err ErrorCode.MISSING_ENV_VAR "Twitter bearer token not configured", 0) :=
  scrapeTwitter_missing_token_no_request (fun _ => 0) none
    [{ username := "avax", userFetchOk := true, userName := some "Avalanche",
       tweetsFetchOk := true, tweetsData := some [] }] (Or.inl rfl)

/-- C6: the empty-result asymmetry — the news connector answers an
empty success when zero items survive fetching and filtering, while the
social connector answers the `NO_DATA_AVAILABLE` failure when no posts
were collected from any monitored account. -/
theorem empty_news_succeeds_empty_twitter_fails
    (parseDate : List Char → Int) (now : Int) (nowIso : List Char)
    (feeds : List News.FeedResult) (parseDateT : String → Int)
    (bearerToken : Option String) (accounts : List Twitter.AccountFetch) :
    (News.allNewsOf parseDate now nowIso feeds = [] →
      News.scrapeNews parseDate now nowIso feeds = Result.ok []) ∧
    (Twitter.tokenMissing bearerToken = false →
      Twitter.collectedPosts accounts = [] →
      (Twitter.scrapeTwitter parseDateT bearerToken accounts).1 =
        Result.err ErrorCode.NO_DATA_AVAILABLE "No tweets found from monitored accounts") := by
  constructor
  · intro h
    simp [News.scrapeNews, h]
  · intro ht hc
    simp [Twitter.scrapeTwitter, ht, hc]

/-- Witness for C6: with every feed empty and an authorized token but
no collected posts, news succeeds with `[]` and twitter fails with
`NO_DATA_AVAILABLE`. -/
theorem empty_news_succeeds_empty_twitter_fails_witness :
    (News.scrapeNews (fun _ => 0) 0 "t".data [none, none] = Result.ok []) ∧
    ((Twitter.scrapeTwitter (fun _ => 0) (some "real-token") []).1 =
      Result.err ErrorCode.NO_DATA_AVAILABLE "No tweets found from monitored accounts") :=
  ⟨(empty_news_succeeds_empty_twitter_fails (fun _ => 0) 0 "t".data [none, none]
      (fun _ => 0) (some "real-token") []).1 rfl,
   (empty_news_succeeds_empty_twitter_fails (fun _ => 0) 0 "t".data [none, none]
      (fun _ => 0) (some "real-token") []).2 (by decide) rfl⟩

/-- C8: `saveDrafts` writes exactly one file, keyed by the calendar
date of the current time, and a second same-day save replaces that
day's batch with the second call's content while touching nothing
else. -/
theorem saveDrafts_same_day_second_wins {ι : Type}
    (fs : Store.Fs ι) (now1 now2 gen1 gen2 : List Char)
    (d1 d2 : List Store.StoredDraft) (i1 i2 : Option ι)
    (hsame : Store.dateKey now1 = Store.dateKey now2) :
    ((Store.saveDrafts now1 gen1 d1 i1 fs).1 (Store.dateKey now1 ++ ".json".data) =
      some { date := Store.dateKey now1, generatedAt := gen1, drafts := d1, input := i1 }) ∧
    (∀ p, p ≠ Store.dateKey now1 ++ ".json".data →
      (Store.saveDrafts now1 gen1 d1 i1 fs).1 p = fs p) ∧
    ((Store.saveDrafts now2 gen2 d2 i2
        (Store.saveDrafts now1 gen1 d1 i1 fs).1).1 (Store.dateKey now2 ++ ".json".data) =
      some { date := Store.dateKey now2, generatedAt := gen2, drafts := d2, input := i2 }) ∧
    (∀ p, p ≠ Store.dateKey now2 ++ ".json".data →
      (Store.saveDrafts now2 gen2 d2 i2
        (Store.saveDrafts now1 gen1 d1 i1 fs).1).1 p = fs p) := by
  refine ⟨?_, fun p hp => ?_, ?_, fun p hp => ?_⟩
  · simp [Store.saveDrafts]
  · simp [Store.saveDrafts, hp]
  · simp [Store.saveDrafts]
  · have hp1 : p ≠ Store.dateKey now1 ++ ".json".data := by
      rw [hsame]; exact hp
    simp [Store.saveDrafts, hp, hp1]

/-- Witness for C8: two saves on 2024-01-30 leave the second batch at
`2024-01-30.json` and no other file. -/
theorem saveDrafts_same_day_second_wins_witness :
    ((Store.saveDrafts (ι := Unit) "2024-01-30T21:00:00.000Z".data "g2".data []
        none
        (Store.saveDrafts "2024-01-30T08:00:00.000Z".data "g1".data [] none
          (fun _ => none)).1).1
      (Store.dateKey "2024-01-30T21:00:00.000Z".data ++ ".json".data) =
      some { date := Store.dateKey "2024-01-30T21:00:00.000Z".data,
             generatedAt := "g2".data, drafts := [], input := none }) ∧
    ((Store.saveDrafts (ι := Unit) "2024-01-30T21:00:00.000Z".data "g2".data []
        none
        (Store.saveDrafts "2024-01-30T08:00:00.000Z".data "g1".data [] none
          (fun _ => none)).1).1 "other.json".data = none) :=
  ⟨(saveDrafts_same_day_second_wins (fun _ => none) "2024-01-30T08:00:00.000Z".data
      "2024-01-30T21:00:00.000Z".data "g1".data "g2".data [] [] none none
      (by decide)).2.2.1,
   (saveDrafts_same_day_second_wins (fun _ => none) "2024-01-30T08:00:00.000Z".data
      "2024-01-30T21:00:00.000Z".data "g1".data "g2".data [] [] none none
      (by decide)).2.2.2 "other.json".data (by decide)⟩
